import Mathlib

/-!
Shallow embedding of the two version-identifier types of the repository:

* `SemanticVersion` from `src/scripts/cli/utils/versioning.py` — a semantic
  version with optional pre-release and build metadata, parsed by the regular
  expression `SEMVER_REGEX` and compared with `__lt__` / `__eq__` /
  `_compare_pre_release`.
* `Version` from `src/scripts/common/version.py` — a four-component dotted
  version (major, minor, build, revision) with `parse`, `__lt__`, `__eq__`,
  `__hash__`, `__str__` and `to_string`.

Python integers are modelled as `Int` (arbitrary precision, no overflow),
Python strings as Lean `String` / `List Char` (the claims only exercise ASCII
inputs, so `\w` and `isdigit` are modelled over ASCII).  Fallible operations
return `Except PyError`; the Python special value `NotImplemented` returned by
the semantic-version dunder methods is modelled as `Option.none`.
-/

/-- Errors raised by the translated Python code: `MalformedVersionError`
(defined in `version.py`), built-in `ValueError`, and built-in `TypeError`. -/
inductive PyError where
  | malformedVersion (msg : String)
  | valueError (msg : String)
  | typeError (msg : String)
deriving DecidableEq, Repr

/-- ASCII decimal digit test, the character class `\d` / `0-9` of the regex
and the ASCII core of Python `str.isdigit`. -/
def isDig (c : Char) : Bool := decide ('0' ≤ c) && decide (c ≤ '9')

/-- Python `str.isdigit()` on an ASCII token: non-empty and all digits. -/
def pyIsdigit (t : List Char) : Bool := !t.isEmpty && t.all isDig

/-- Numeric value of a digit string, as computed by Python `int(s)` on a
string of decimal digits (leading zeros allowed by `int`). -/
def digitsVal (l : List Char) : Nat := l.foldl (fun a c => a * 10 + (c.toNat - 48)) 0

/-- Decimal digit character for a value below ten. -/
def digitChar (n : Nat) : Char :=
  if n = 0 then '0' else if n = 1 then '1' else if n = 2 then '2'
  else if n = 3 then '3' else if n = 4 then '4' else if n = 5 then '5'
  else if n = 6 then '6' else if n = 7 then '7' else if n = 8 then '8'
  else if n = 9 then '9' else '*'

/-- Big-endian decimal digits of a positive natural number (empty for 0),
the digit sequence produced by Python `str(n)` / an f-string for `n > 0`. -/
def natDigits : Nat → List Char
  | 0 => []
  | n + 1 => natDigits ((n + 1) / 10) ++ [digitChar ((n + 1) % 10)]
decreasing_by exact Nat.div_lt_self (Nat.succ_pos n) (by norm_num)

/-- Characters of the decimal rendering of a natural number. -/
def natChars (n : Nat) : List Char := if n = 0 then ['0'] else natDigits n

/-- Decimal rendering of a natural number, Python `str(n)` for `n ≥ 0`. -/
def natRepr (n : Nat) : String := ⟨natChars n⟩

/-- Decimal rendering of a Python integer, as an f-string interpolates it. -/
def intRepr (i : Int) : String :=
  if i < 0 then "-" ++ natRepr i.natAbs else natRepr i.toNat

/-- Python `s.split(".")`: splits on every dot, keeping empty pieces; the
split of the empty string is `[[]]` (Python returns `[""]`). -/
def splitDot : List Char → List (List Char)
  | [] => [[]]
  | c :: r =>
    if c = '.' then [] :: splitDot r
    else
      match splitDot r with
      | h :: t => (c :: h) :: t
      | [] => [[c]]

/-- Python lexicographic comparison `s1 < s2` on strings (by code point). -/
def lexLt : List Char → List Char → Bool
  | [], [] => false
  | [], _ :: _ => true
  | _ :: _, [] => false
  | a :: as, b :: bs => if a < b then true else if b < a then false else lexLt as bs

/-- Substring membership, Python `needle in hay` on strings. -/
def hasSub (needle : List Char) : List Char → Bool
  | [] => needle.isEmpty
  | c :: rest => needle.isPrefixOf (c :: rest) || hasSub needle rest

/-- Truthiness of a Python string: non-empty. -/
def pyTruthy (s : String) : Bool := s != ""

/-- Python `int(s)` on a stripped string: optional sign followed by a
non-empty digit sequence, otherwise `ValueError`. -/
def pyInt (t : List Char) : Except PyError Int :=
  match t with
  | '-' :: rest =>
    if pyIsdigit rest then .ok (-(digitsVal rest : Int))
    else .error (.valueError "invalid literal for int() with base 10")
  | '+' :: rest =>
    if pyIsdigit rest then .ok (digitsVal rest : Int)
    else .error (.valueError "invalid literal for int() with base 10")
  | _ =>
    if pyIsdigit t then .ok (digitsVal t : Int)
    else .error (.valueError "invalid literal for int() with base 10")

/-! ## The regular expression `SEMVER_REGEX`

`^(?P<major>0|[1-9]\d*)\.(?P<minor>0|[1-9]\d*)(\.(?P<patch>0|[1-9]\d*))?`
`(-(?P<pre_release>[\w.-]+))?(\+(?P<build_metadata>[\w.-]+))?$`

The regex is deterministic on its accepted language, so it is embedded as a
recursive-descent match.  A numeric group `(0|[1-9]\d*)` matched greedily
with anchoring is equivalent to taking the longest digit run and rejecting a
leading zero on a multi-digit run: every follow set of a numeric group
(`.`, `-`, `+`, end of string) excludes digits, so backtracking into a
shorter digit run can never produce an overall match.  Likewise the classes
`[\w.-]` of the pre-release and build groups exclude `+`, so their greedy
matches take all characters up to the next `+` or the end. -/

/-- ASCII character class `[\w.-]` of the pre-release / build groups. -/
def preChar (c : Char) : Bool := c.isAlpha || isDig c || c = '_' || c = '.' || c = '-'

/-- Longest-digit-run match of the anchored numeric group `(0|[1-9]\d*)`:
fails on an empty run or on a leading zero in a multi-digit run. -/
def numToken (l : List Char) : Option (Nat × List Char) :=
  match l.takeWhile isDig with
  | [] => none
  | c :: cs =>
    if c = '0' && !cs.isEmpty then none
    else some (digitsVal (c :: cs), l.dropWhile isDig)

/-- Match of the optional group `(\.(?P<patch>0|[1-9]\d*))?`: if the input
starts with a dot the numeric group must match (no later group can consume
the dot), otherwise the group matches empty. -/
def parsePatch (l : List Char) : Option (Option Nat × List Char) :=
  match l with
  | '.' :: r => (numToken r).map (fun p => (some p.1, p.2))
  | _ => some (none, l)

/-- Match of the optional group `(-(?P<pre_release>[\w.-]+))?`. -/
def parsePre (l : List Char) : Option (Option (List Char) × List Char) :=
  match l with
  | '-' :: r =>
    let tok := r.takeWhile preChar
    if tok.isEmpty then none else some (some tok, r.dropWhile preChar)
  | _ => some (none, l)

/-- Match of the trailing `(\+(?P<build_metadata>[\w.-]+))?$`, including the
end anchor: any unconsumed input fails the whole match. -/
def parseBuild (l : List Char) : Option (Option (List Char)) :=
  match l with
  | [] => some none
  | '+' :: r =>
    let tok := r.takeWhile preChar
    if tok.isEmpty || !(r.dropWhile preChar).isEmpty then none else some (some tok)
  | _ => none

/-- The named groups extracted by a successful full match of `SEMVER_REGEX`
(`match.groupdict()`), with numeric groups already passed through `int` —
the parser applies `int` only to groups the regex constrains to digit runs. -/
structure SemGroups where
  major : Nat
  minor : Nat
  patch : Option Nat
  pre_release : Option String
  build_metadata : Option String
deriving DecidableEq, Repr

/-- Full match of `SEMVER_REGEX` against a character list, `none` when the
string does not match. -/
def semverMatch (l : List Char) : Option SemGroups := do
  let (maj, r1) ← numToken l
  match r1 with
  | '.' :: r2 => do
    let (mi, r3) ← numToken r2
    let (p, r4) ← parsePatch r3
    let (pre, r5) ← parsePre r4
    let bm ← parseBuild r5
    pure ⟨maj, mi, p, (pre.map fun t => (⟨t⟩ : String)), (bm.map fun t => (⟨t⟩ : String))⟩
  | _ => none

/-- The `SemanticVersion` class of `versioning.py`: major/minor/patch are
Python ints, pre-release and build metadata optional strings. -/
structure SemanticVersion where
  major : Int
  minor : Int
  patch : Int
  pre_release : Option String
  build_metadata : Option String
deriving DecidableEq, Repr

/-- `SemanticVersion.parse_version`.  On a non-matching string it raises
`ValueError`.  On a match it builds
`SemanticVersion(groups["major"], groups["minor"], groups.get("patch", "0"),
groups.get("pre_release"), groups.get("build_metadata"))`; since
`match.groupdict()` always contains the key `"patch"` (with value `None`
when the optional group did not participate), `groups.get("patch", "0")`
returns `None` — never the default `"0"` — and the constructor's
`int(None)` raises `TypeError`. -/
def SemanticVersion.parse_version (s : String) : Except PyError SemanticVersion :=
  match semverMatch s.data with
  | none => .error (.valueError ("Invalid semantic version: " ++ s))
  | some g =>
    match g.patch with
    | none =>
      .error (.typeError
        "int() argument must be a string, a bytes-like object or a real number, not 'NoneType'")
    | some p => .ok ⟨g.major, g.minor, p, g.pre_release, g.build_metadata⟩

/-- `SemanticVersion.__eq__` between two `SemanticVersion` operands: compares
major, minor, patch and pre-release; build metadata does not participate. -/
def SemanticVersion.beq (a b : SemanticVersion) : Bool :=
  a.major == b.major && a.minor == b.minor && a.patch == b.patch
    && a.pre_release == b.pre_release

/-- Comparison of one aligned pair of pre-release tokens inside the loop of
`_compare_pre_release`: Python evaluates
`(int(sub1) if sub1.isdigit() else sub1) < (int(sub2) if sub2.isdigit() else sub2)`,
which compares numerically when both tokens are digit runs, lexicographically
when neither is, and raises `TypeError` (an `int`/`str` comparison — not
caught by the surrounding `except ValueError`) when exactly one is. -/
def tokenLt (t1 t2 : List Char) : Except PyError Bool :=
  if pyIsdigit t1 && pyIsdigit t2 then .ok (decide (digitsVal t1 < digitsVal t2))
  else if pyIsdigit t1 || pyIsdigit t2 then
    .error (.typeError "'<' not supported between instances of 'int' and 'str'")
  else .ok (lexLt t1 t2)

/-- The `for sub1, sub2 in zip(pr1_parts, pr2_parts)` loop of
`_compare_pre_release`: returns `true` (the loop's `return -1`) at the first
aligned pair whose comparison evaluates true.  The source's `if result > 0:
return 1` branch is unreachable, because `result` is the boolean just tested
by `if result: return -1`, so a pair with a greater left token never decides
the loop; it simply continues. -/
def preLoop : List (List Char) → List (List Char) → Except PyError Bool
  | t1 :: r1, t2 :: r2 => do
    let lt ← tokenLt t1 t2
    if lt then pure true else preLoop r1 r2
  | _, _ => pure false

/-- `SemanticVersion._compare_pre_release`.  `None` on either side is decided
by truthiness (`1 if pr2 else 0`, `-1`); otherwise both strings are split on
dots and fed to the pair loop, falling through to the length difference. -/
def SemanticVersion.compare_pre_release (pr1 pr2 : Option String) : Except PyError Int :=
  match pr1 with
  | none => .ok (match pr2 with
      | some p2 => if p2 != "" then 1 else 0
      | none => 0)
  | some p1 =>
    match pr2 with
    | none => .ok (-1)
    | some p2 =>
      let parts1 := splitDot p1.data
      let parts2 := splitDot p2.data
      match preLoop parts1 parts2 with
      | .error e => .error e
      | .ok true => .ok (-1)
      | .ok false => .ok ((parts1.length : Int) - (parts2.length : Int))

/-- Python tuple comparison `(a1, a2, a3) < (b1, b2, b3)` on integer triples:
lexicographic with short-circuit at the first difference. -/
def tupleLt3 (x y : Int × Int × Int) : Bool :=
  decide (x.1 < y.1)
    || (x.1 == y.1
      && (decide (x.2.1 < y.2.1) || (x.2.1 == y.2.1 && decide (x.2.2 < y.2.2))))

/-- `SemanticVersion.__lt__` between two `SemanticVersion` operands: compares
the `(major, minor, patch)` tuples when they differ, otherwise the sign of
`_compare_pre_release`; build metadata does not participate. -/
def SemanticVersion.lt (a b : SemanticVersion) : Except PyError Bool :=
  if (a.major, a.minor, a.patch) ≠ (b.major, b.minor, b.patch) then
    .ok (tupleLt3 (a.major, a.minor, a.patch) (b.major, b.minor, b.patch))
  else
    (SemanticVersion.compare_pre_release a.pre_release b.pre_release).map
      fun c => decide (c < 0)

/-- `SemanticVersion.__str__`: renders `major.minor.patch`, appending
`-pre_release` and `+build_metadata` only when truthy (non-`None` and
non-empty). -/
def SemanticVersion.str (v : SemanticVersion) : String :=
  let version := intRepr v.major ++ "." ++ intRepr v.minor ++ "." ++ intRepr v.patch
  let version :=
    match v.pre_release with
    | some p => if p != "" then version ++ "-" ++ p else version
    | none => version
  match v.build_metadata with
  | some b => if b != "" then version ++ "+" ++ b else version
  | none => version

/-- The `Version` class of `common/version.py` (a port of dotnet
`System.Version`), with defaults minor = 0, build = -1, revision = -1. -/
structure Version where
  major : Int
  minor : Int
  build : Int
  revision : Int
deriving DecidableEq, Repr

/-- `Version.parse`.  The guard translates the Python line
`if "+" or "-" in version:` which, by operator precedence, is
`("+") or ("-" in version)`: the truthiness of the non-empty literal `"+"`,
hence always true — every call raises `MalformedVersionError` before the
segment-splitting code below the guard can run. -/
def Version.parse (version : String) : Except PyError Version :=
  if pyTruthy "+" || hasSub "-".data version.data then
    .error (.malformedVersion "Version string cannot contain metadata")
  else
    let segments := splitDot version.data
    let total := segments.length
    if total = 0 || total > 4 then
      .error (.malformedVersion "Version string must contain between 1 and 4 segments")
    else if total = 1 then do
      let a ← pyInt (segments.getD 0 [])
      pure ⟨a, 0, -1, -1⟩
    else if total = 2 then do
      let a ← pyInt (segments.getD 0 [])
      let b ← pyInt (segments.getD 1 [])
      pure ⟨a, b, -1, -1⟩
    else if total = 3 then do
      let a ← pyInt (segments.getD 0 [])
      let b ← pyInt (segments.getD 1 [])
      let c ← pyInt (segments.getD 2 [])
      pure ⟨a, b, c, -1⟩
    else do
      let a ← pyInt (segments.getD 0 [])
      let b ← pyInt (segments.getD 1 [])
      let c ← pyInt (segments.getD 2 [])
      let d ← pyInt (segments.getD 3 [])
      pure ⟨a, b, c, d⟩

/-- `Version.__eq__` between two `Version` operands: all four components. -/
def Version.beq (a b : Version) : Bool :=
  a.major == b.major && a.minor == b.minor && a.build == b.build
    && a.revision == b.revision

/-- `Version.__lt__` between two `Version` operands: returns true as soon as
ANY component of the left operand is strictly smaller than the corresponding
component of the right operand, checking major, minor, build, revision in
that order without requiring the earlier components to be equal. -/
def Version.lt (a b : Version) : Bool :=
  if a.major < b.major then true
  else if a.minor < b.minor then true
  else if a.build < b.build then true
  else if a.revision < b.revision then true
  else false

/-- `Version.__hash__`: ors the masked components into one accumulator.
Python `x & (2^k - 1)` equals `x mod 2^k` also for negative `x` (integers
behave as infinite two's complement), so the masks are `emod`. -/
def Version.hash (v : Version) : Nat :=
  ((((0 : Nat).lor ((v.major.emod 16).toNat <<< 28)).lor
      ((v.minor.emod 256).toNat <<< 20)).lor
    ((v.build.emod 4096).toNat <<< 12)).lor (v.revision.emod 4096).toNat

/-- `Version.to_string`: renders the first `field_count` components, raising
`ValueError` unless `field_count` is between 1 and 4. -/
def Version.to_string (v : Version) (field_count : Int) : Except PyError String :=
  if field_count ≤ 0 || field_count > 4 then
    .error (.valueError "`field_count` must be between 1 and 4, inclusive")
  else if field_count = 1 then .ok (intRepr v.major)
  else if field_count = 2 then .ok (intRepr v.major ++ "." ++ intRepr v.minor)
  else if field_count = 3 then
    .ok (intRepr v.major ++ "." ++ intRepr v.minor ++ "." ++ intRepr v.build)
  else
    .ok (intRepr v.major ++ "." ++ intRepr v.minor ++ "." ++ intRepr v.build
      ++ "." ++ intRepr v.revision)

/-- `Version.__str__`: starts from `fields = 1` and then reassigns it by the
three `if` statements in source order — revision, build, minor — so a later
check overwrites an earlier one, and finally delegates to `to_string`. -/
def Version.strDefault (v : Version) : Except PyError String :=
  let fields : Int := 1
  let fields := if v.revision > 0 then 4 else fields
  let fields := if v.build > 0 then 3 else fields
  let fields := if v.minor > 0 then 2 else fields
  v.to_string fields

/-- A Python value appearing as the right operand of a comparison dunder:
a dotted `Version`, a `SemanticVersion`, or any other object. -/
inductive PyValue where
  | dotted (v : Version)
  | sem (s : SemanticVersion)
  | other
deriving Repr

/-- `Version.__eq__` under dynamic dispatch: `isinstance` failure returns
`False` — no error is raised. -/
def Version.eqPy (a : Version) : PyValue → Bool
  | .dotted b => Version.beq a b
  | _ => false

/-- `Version.__lt__` under dynamic dispatch: `isinstance` failure raises
`ValueError("other must be of type Version")`. -/
def Version.ltPy (a : Version) : PyValue → Except PyError Bool
  | .dotted b => .ok (Version.lt a b)
  | _ => .error (.valueError "other must be of type Version")

/-- `SemanticVersion.__eq__` under dynamic dispatch: `isinstance` failure
returns `NotImplemented` (modelled `none`), deferring to the runtime. -/
def SemanticVersion.eqPy (a : SemanticVersion) : PyValue → Option Bool
  | .sem b => some (SemanticVersion.beq a b)
  | _ => none

/-- `SemanticVersion.__lt__` under dynamic dispatch: `isinstance` failure
returns `NotImplemented` (modelled `none`). -/
def SemanticVersion.ltPy (a : SemanticVersion) : PyValue → Option (Except PyError Bool)
  | .sem b => some (SemanticVersion.lt a b)
  | _ => none

/-! ## Auxiliary lemmas -/

lemma intRepr_ofNat (n : Nat) : intRepr (n : Int) = natRepr n := by
  simp [intRepr]

lemma natDigits_zero : natDigits 0 = [] := by simp [natDigits]

lemma natDigits_lt_ten (n : Nat) (h1 : 0 < n) (h2 : n < 10) :
    natDigits n = [digitChar n] := by
  obtain ⟨m, rfl⟩ : ∃ m, n = m + 1 := ⟨n - 1, by omega⟩
  rw [natDigits]
  rw [Nat.div_eq_of_lt h2, Nat.mod_eq_of_lt h2, natDigits_zero]
  rfl

lemma natRepr_lt_ten (n : Nat) (h : n < 10) : natRepr n = ⟨[digitChar n]⟩ := by
  rw [natRepr, natChars]
  by_cases h0 : n = 0
  · subst h0; rfl
  · rw [if_neg h0, natDigits_lt_ten n (by omega) h]

lemma intRepr_one : intRepr 1 = "1" := by
  rw [show (1 : Int) = ((1 : Nat) : Int) from rfl, intRepr_ofNat, natRepr_lt_ten 1 (by omega)]
  rfl

lemma intRepr_two : intRepr 2 = "2" := by
  rw [show (2 : Int) = ((2 : Nat) : Int) from rfl, intRepr_ofNat, natRepr_lt_ten 2 (by omega)]
  rfl

/-! ## Claims -/

/-- C1: the claim says every one-to-four-segment numeric version string with
no `+` or `-` parses successfully; in fact `Version.parse` raises
`MalformedVersionError` on EVERY input, because the guard
`if "+" or "-" in version:` tests the truthiness of the literal `"+"`. -/
theorem dotted_parse_always_raises (s : String) :
    Version.parse s
      = .error (.malformedVersion "Version string cannot contain metadata") := by
  have h : pyTruthy "+" = true := rfl
  simp [Version.parse, h]

/-- C2: the claim says parsing a semantic version that omits the patch
segment yields patch = 0; in fact `parse_version "1.0"` raises `TypeError`,
because `groupdict()` contains `patch = None` and the `"0"` default of
`groups.get("patch", "0")` never applies, so the constructor runs
`int(None)`. -/
theorem semver_parse_missing_patch_type_error :
    SemanticVersion.parse_version "1.0"
      = .error (.typeError
        "int() argument must be a string, a bytes-like object or a real number, not 'NoneType'") :=
  rfl

/-- C3: the claim says the first differing aligned pair of pre-release
tokens decides the order; in fact the loop only ever returns LESS (its
`return 1` branch compares a boolean with 0 and is unreachable), so for
pre-releases "2.1" and "1.2" — whose first pair 2 vs 1 should decide
GREATER for the left — both `a < b` and `b < a` evaluate true. -/
theorem semver_pre_release_first_pair_not_decisive :
    SemanticVersion.parse_version "1.0.0-2.1" = .ok ⟨1, 0, 0, some "2.1", none⟩
      ∧ SemanticVersion.parse_version "1.0.0-1.2" = .ok ⟨1, 0, 0, some "1.2", none⟩
      ∧ SemanticVersion.lt ⟨1, 0, 0, some "2.1", none⟩ ⟨1, 0, 0, some "1.2", none⟩ = .ok true
      ∧ SemanticVersion.lt ⟨1, 0, 0, some "1.2", none⟩ ⟨1, 0, 0, some "2.1", none⟩ = .ok true :=
  ⟨rfl, rfl, rfl, rfl⟩

/-- C4: the dotted `Version` ordering returns true whenever ANY component of
the left operand is strictly smaller than the corresponding component of the
right operand, so with majors/minors (1,2) and (2,1) both `a < b` and
`b < a` are true — not a coherent total order. -/
theorem dotted_lt_incoherent :
    (Version.lt ⟨1, 2, -1, -1⟩ ⟨2, 1, -1, -1⟩ = true
      ∧ Version.lt ⟨2, 1, -1, -1⟩ ⟨1, 2, -1, -1⟩ = true)
    ∧ ∀ a b : Version,
        Version.lt a b
          = (decide (a.major < b.major) || decide (a.minor < b.minor)
            || decide (a.build < b.build) || decide (a.revision < b.revision)) := by
  refine ⟨⟨by decide, by decide⟩, ?_⟩
  intro a b
  unfold Version.lt
  split_ifs <;> simp_all

/-- C6: build metadata never influences `SemanticVersion` equality or
ordering — replacing it on both operands by arbitrary values leaves `==`
and `<` unchanged — and `Parse("1.0.0+build1") == Parse("1.0.0+build2")`. -/
theorem semver_build_metadata_irrelevant :
    ∀ (a b : SemanticVersion) (m1 m2 : Option String),
      SemanticVersion.beq { a with build_metadata := m1 } { b with build_metadata := m2 }
          = SemanticVersion.beq a b
        ∧ SemanticVersion.lt { a with build_metadata := m1 } { b with build_metadata := m2 }
          = SemanticVersion.lt a b
        ∧ ∃ va vb,
            SemanticVersion.parse_version "1.0.0+build1" = .ok va
              ∧ SemanticVersion.parse_version "1.0.0+build2" = .ok vb
              ∧ SemanticVersion.beq va vb = true := by
  intro a b m1 m2
  exact ⟨rfl, rfl, ⟨1, 0, 0, none, some "build1"⟩, ⟨1, 0, 0, none, some "build2"⟩,
    rfl, rfl, rfl⟩

/-- C7: with equal (major, minor, patch), a version carrying a pre-release
compares strictly below the one without a pre-release, in both directions of
the `<` operator. -/
theorem semver_release_gt_pre_release (a b : SemanticVersion)
    (hmaj : a.major = b.major) (hmin : a.minor = b.minor) (hpat : a.patch = b.patch)
    (hpre : a.pre_release.isSome = true) (hnone : b.pre_release = none) :
    SemanticVersion.lt a b = .ok true ∧ SemanticVersion.lt b a = .ok false := by
  obtain ⟨p, hp⟩ := Option.isSome_iff_exists.mp hpre
  constructor
  · simp [SemanticVersion.lt, hmaj, hmin, hpat, hp, hnone,
      SemanticVersion.compare_pre_release, Except.map]
  · simp [SemanticVersion.lt, hmaj, hmin, hpat, hp, hnone,
      SemanticVersion.compare_pre_release, Except.map]
    split_ifs <;> decide

/-- C7 witness: `Parse("1.0.0-alpha") < Parse("1.0.0")` is true and
`Parse("1.0.0") < Parse("1.0.0-alpha")` is false. -/
theorem semver_release_gt_pre_release_witness :
    SemanticVersion.parse_version "1.0.0-alpha" = .ok ⟨1, 0, 0, some "alpha", none⟩
      ∧ SemanticVersion.parse_version "1.0.0" = .ok ⟨1, 0, 0, none, none⟩
      ∧ SemanticVersion.lt ⟨1, 0, 0, some "alpha", none⟩ ⟨1, 0, 0, none, none⟩ = .ok true
      ∧ SemanticVersion.lt ⟨1, 0, 0, none, none⟩ ⟨1, 0, 0, some "alpha", none⟩ = .ok false :=
  ⟨rfl, rfl,
    (semver_release_gt_pre_release ⟨1, 0, 0, some "alpha", none⟩ ⟨1, 0, 0, none, none⟩
      rfl rfl rfl (by decide) rfl).1,
    (semver_release_gt_pre_release ⟨1, 0, 0, some "alpha", none⟩ ⟨1, 0, 0, none, none⟩
      rfl rfl rfl (by decide) rfl).2⟩

/-- C8 counterexample: `Version(1, 2, 3, 4)` has revision 4 > 0, yet its
default rendering is "1.2", not the four-component "1.2.3.4": the `minor > 0`
check runs last and overwrites the field count chosen for the revision. -/
theorem dotted_default_render_cex :
    Version.strDefault ⟨1, 2, 3, 4⟩ = .ok "1.2" ∧ ("1.2" : String) ≠ "1.2.3.4" := by
  constructor
  · simp [Version.strDefault, Version.to_string, intRepr_one, intRepr_two]
  · decide

/-- C8 amended: the default rendering picks the field count by the LAST
matching check in source order — 2 whenever minor > 0, else 3 whenever
build > 0, else 4 whenever revision > 0, else 1 — so all four components
appear only when revision > 0 while minor and build are not positive. -/
theorem dotted_default_render_field_count (v : Version) :
    Version.strDefault v
      = v.to_string
          (if v.minor > 0 then 2
            else if v.build > 0 then 3
            else if v.revision > 0 then 4
            else 1) := by
  unfold Version.strDefault
  split_ifs <;> rfl

/-- C9 counterexample: comparing a dotted `Version` with a
`SemanticVersion` for equality does NOT fail — `Version.__eq__` returns
`False` for any non-`Version` operand. -/
theorem version_eq_mismatch_no_error :
    Version.eqPy ⟨1, 0, -1, -1⟩ (.sem ⟨1, 0, 0, none, none⟩) = false := rfl

/-- C9 amended: only ordering comparisons fail on mismatched operand types
(`Version.__lt__` raises ValueError; `SemanticVersion.__lt__` returns
`NotImplemented`, deferring to the runtime); equality instead returns a
result — `False` from `Version.__eq__` and `NotImplemented` from
`SemanticVersion.__eq__` — with no error and no coercion. -/
theorem version_cross_type_comparison (a : Version) (s : SemanticVersion) :
    Version.eqPy a (.sem s) = false ∧ Version.eqPy a .other = false
      ∧ Version.ltPy a (.sem s) = .error (.valueError "other must be of type Version")
      ∧ Version.ltPy a .other = .error (.valueError "other must be of type Version")
      ∧ SemanticVersion.eqPy s (.dotted a) = none
      ∧ SemanticVersion.eqPy s .other = none
      ∧ SemanticVersion.ltPy s (.dotted a) = none
      ∧ SemanticVersion.ltPy s .other = none :=
  ⟨rfl, rfl, rfl, rfl, rfl, rfl, rfl, rfl⟩

/-- C10: equal dotted `Version`s hash equally — the hash reads exactly the
four components that `__eq__` compares. -/
theorem dotted_eq_implies_hash_eq (a b : Version) (h : Version.beq a b = true) :
    Version.hash a = Version.hash b := by
  simp only [Version.beq, Bool.and_eq_true, beq_iff_eq] at h
  obtain ⟨⟨⟨h1, h2⟩, h3⟩, h4⟩ := h
  simp [Version.hash, h1, h2, h3, h4]

/-- C10 witness: two structurally equal dotted versions hash equally. -/
theorem dotted_eq_implies_hash_eq_witness :
    Version.hash ⟨1, 2, 3, 4⟩ = Version.hash ⟨1, 2, 3, 4⟩ :=
  dotted_eq_implies_hash_eq ⟨1, 2, 3, 4⟩ ⟨1, 2, 3, 4⟩ (by decide)

/-! ## Round-trip lemmas for the canonical decimal rendering -/


lemma digitsVal_append_singleton (xs : List Char) (d : Char) :
    digitsVal (xs ++ [d]) = digitsVal xs * 10 + (d.toNat - 48) := by
  simp [digitsVal, List.foldl_append]

lemma digitChar_isDig (n : Nat) (h : n < 10) : isDig (digitChar n) = true := by
  interval_cases n <;> decide

lemma digitChar_toNat (n : Nat) (h : n < 10) : (digitChar n).toNat - 48 = n := by
  interval_cases n <;> decide

lemma digitChar_ne_zero (n : Nat) (h0 : 0 < n) (h : n < 10) : ¬digitChar n = '0' := by
  interval_cases n <;> decide

lemma natDigits_all_dig (n : Nat) : ∀ c ∈ natDigits n, isDig c = true := by
  induction n using Nat.strong_induction_on with
  | _ n ih =>
    match n with
    | 0 => rw [natDigits_zero]; intro c hc; cases hc
    | m + 1 =>
      rw [natDigits]
      intro c hc
      rcases List.mem_append.mp hc with hmem | hmem
      · exact ih ((m + 1) / 10) (Nat.div_lt_self (Nat.succ_pos m) (by norm_num)) c hmem
      · rw [List.mem_singleton.mp hmem]
        exact digitChar_isDig _ (Nat.mod_lt _ (by norm_num))

lemma digitsVal_natDigits (n : Nat) : digitsVal (natDigits n) = n := by
  induction n using Nat.strong_induction_on with
  | _ n ih =>
    match n with
    | 0 => rw [natDigits_zero]; rfl
    | m + 1 =>
      rw [natDigits, digitsVal_append_singleton,
        ih ((m + 1) / 10) (Nat.div_lt_self (Nat.succ_pos m) (by norm_num)),
        digitChar_toNat _ (Nat.mod_lt _ (by norm_num))]
      omega

lemma natDigits_head (n : Nat) (h : 0 < n) :
    ∃ c cs, natDigits n = c :: cs ∧ ¬c = '0' := by
  induction n using Nat.strong_induction_on with
  | _ n ih =>
    match n, h with
    | m + 1, _ =>
      rw [natDigits]
      by_cases hq : (m + 1) / 10 = 0
      · have hlt : m + 1 < 10 := by omega
        rw [hq, natDigits_zero, Nat.mod_eq_of_lt hlt]
        exact ⟨digitChar (m + 1), [], rfl, digitChar_ne_zero _ (Nat.succ_pos m) hlt⟩
      · obtain ⟨c, cs, hcs, hne⟩ :=
          ih ((m + 1) / 10) (Nat.div_lt_self (Nat.succ_pos m) (by norm_num))
            (Nat.pos_of_ne_zero hq)
        exact ⟨c, cs ++ [digitChar ((m + 1) % 10)], by rw [hcs]; rfl, hne⟩

lemma takeWhile_append_of (p : Char → Bool) (l r : List Char)
    (hl : ∀ c ∈ l, p c = true) (hr : ∀ c cs, r = c :: cs → p c = false) :
    (l ++ r).takeWhile p = l := by
  induction l with
  | nil =>
    cases r with
    | nil => rfl
    | cons c cs => simp [List.takeWhile_cons, hr c cs rfl]
  | cons a as ih =>
    simp only [List.cons_append, List.takeWhile_cons, hl a (List.mem_cons_self a as),
      if_true, List.cons.injEq, true_and]
    exact ih fun c hc => hl c (List.mem_cons_of_mem a hc)

lemma dropWhile_append_of (p : Char → Bool) (l r : List Char)
    (hl : ∀ c ∈ l, p c = true) (hr : ∀ c cs, r = c :: cs → p c = false) :
    (l ++ r).dropWhile p = r := by
  induction l with
  | nil =>
    cases r with
    | nil => rfl
    | cons c cs => simp [List.dropWhile_cons, hr c cs rfl]
  | cons a as ih =>
    simp only [List.cons_append, List.dropWhile_cons, hl a (List.mem_cons_self a as), if_true]
    exact ih fun c hc => hl c (List.mem_cons_of_mem a hc)

lemma natChars_all_dig (n : Nat) : ∀ c ∈ natChars n, isDig c = true := by
  rw [natChars]
  by_cases h0 : n = 0
  · subst h0; intro c hc; rw [List.mem_singleton.mp hc]; decide
  · rw [if_neg h0]; exact natDigits_all_dig n

lemma numToken_natChars (n : Nat) (r : List Char)
    (hr : ∀ c cs, r = c :: cs → isDig c = false) :
    numToken (natChars n ++ r) = some (n, r) := by
  have ht : (natChars n ++ r).takeWhile isDig = natChars n :=
    takeWhile_append_of isDig (natChars n) r (natChars_all_dig n) hr
  have hd : (natChars n ++ r).dropWhile isDig = r :=
    dropWhile_append_of isDig (natChars n) r (natChars_all_dig n) hr
  by_cases h0 : n = 0
  · subst h0
    unfold numToken
    rw [ht, hd]
    rfl
  · obtain ⟨c, cs, hcs, hne⟩ := natDigits_head n (Nat.pos_of_ne_zero h0)
    have hnc : natChars n = c :: cs := by rw [natChars, if_neg h0, hcs]
    unfold numToken
    rw [ht, hd, hnc]
    have hcond : (decide (c = '0') && !cs.isEmpty) = false := by
      simp [hne]
    show (if (decide (c = '0') && !cs.isEmpty) = true then none
      else some (digitsVal (c :: cs), r)) = some (n, r)
    rw [hcond]
    simp only [Bool.false_eq_true, if_false, Option.some.injEq, Prod.mk.injEq, and_true]
    rw [← hcs, digitsVal_natDigits]


lemma semverMatch_canonical (a b c : Nat) :
    semverMatch (natChars a ++ ('.' :: (natChars b ++ ('.' :: natChars c))))
      = some ⟨a, b, some c, none, none⟩ := by
  have hdot : ∀ (x : List Char), ∀ d cs, ('.' :: x) = d :: cs → isDig d = false := by
    intro x d cs h
    cases h
    rfl
  have h1 := numToken_natChars a ('.' :: (natChars b ++ ('.' :: natChars c))) (hdot _)
  have h2 := numToken_natChars b ('.' :: natChars c) (hdot _)
  have h3 : numToken (natChars c) = some (c, []) := by
    have := numToken_natChars c [] (by intro d cs h; cases h)
    rwa [List.append_nil] at this
  unfold semverMatch
  rw [h1]
  show (do
    let (mi, r3) ← numToken (natChars b ++ ('.' :: natChars c))
    let (p, r4) ← parsePatch r3
    let (pre, r5) ← parsePre r4
    let bm ← parseBuild r5
    pure (⟨a, mi, p, (pre.map fun t => (⟨t⟩ : String)), (bm.map fun t => (⟨t⟩ : String))⟩ :
      SemGroups)) = some ⟨a, b, some c, none, none⟩
  rw [h2]
  show (do
    let (p, r4) ← parsePatch ('.' :: natChars c)
    let (pre, r5) ← parsePre r4
    let bm ← parseBuild r5
    pure (⟨a, b, p, (pre.map fun t => (⟨t⟩ : String)), (bm.map fun t => (⟨t⟩ : String))⟩ :
      SemGroups)) = some ⟨a, b, some c, none, none⟩
  have hpatch : parsePatch ('.' :: natChars c) = some (some c, []) := by
    show Option.map (fun p => (some p.1, p.2)) (numToken (natChars c)) = some (some c, [])
    rw [h3]
    rfl
  rw [hpatch]
  rfl


lemma parse_version_canonical (a b c : Nat) :
    SemanticVersion.parse_version (natRepr a ++ "." ++ natRepr b ++ "." ++ natRepr c)
      = .ok ⟨(a : Int), (b : Int), (c : Int), none, none⟩ := by
  have hdata : (natRepr a ++ "." ++ natRepr b ++ "." ++ natRepr c).data
      = natChars a ++ ('.' :: (natChars b ++ ('.' :: natChars c))) := by
    simp [natRepr, String.data_append, List.append_assoc]
  unfold SemanticVersion.parse_version
  rw [hdata, semverMatch_canonical]

/-- C5: for every valid three-component "major.minor.patch" string — i.e.
whenever `parse_version` succeeds with no pre-release and no build metadata —
parsing, rendering with `__str__`, and parsing again yields a value equal
(under `__eq__`) to the first parse: Parse(Render(Parse(s))) == Parse(s). -/
theorem semver_parse_render_roundtrip (s : String) (v : SemanticVersion)
    (h : SemanticVersion.parse_version s = .ok v)
    (hpre : v.pre_release = none) (hbuild : v.build_metadata = none) :
    ∃ w, SemanticVersion.parse_version (SemanticVersion.str v) = .ok w
      ∧ SemanticVersion.beq w v = true := by
  unfold SemanticVersion.parse_version at h
  cases hm : semverMatch s.data with
  | none => rw [hm] at h; cases h
  | some g =>
    rw [hm] at h
    have h2 : (match g.patch with
        | none => Except.error (PyError.typeError
            "int() argument must be a string, a bytes-like object or a real number, not 'NoneType'")
        | some p => Except.ok (⟨(g.major : Int), (g.minor : Int), (p : Int),
            g.pre_release, g.build_metadata⟩ : SemanticVersion)) = Except.ok v := h
    cases hp : g.patch with
    | none => rw [hp] at h2; cases h2
    | some p =>
      rw [hp] at h2
      have h3 : Except.ok (⟨(g.major : Int), (g.minor : Int), (p : Int),
          g.pre_release, g.build_metadata⟩ : SemanticVersion) = Except.ok v := h2
      have hv : v = ⟨(g.major : Int), (g.minor : Int), (p : Int),
          g.pre_release, g.build_metadata⟩ := by
        injection h3 with h4
        exact h4.symm
      subst hv
      simp only at hpre hbuild
      refine ⟨⟨(g.major : Int), (g.minor : Int), (p : Int), none, none⟩, ?_, ?_⟩
      · have hstr : SemanticVersion.str
            ⟨(g.major : Int), (g.minor : Int), (p : Int), g.pre_release, g.build_metadata⟩
            = natRepr g.major ++ "." ++ natRepr g.minor ++ "." ++ natRepr p := by
          unfold SemanticVersion.str
          rw [hpre, hbuild]
          simp [intRepr_ofNat]
        rw [hstr, parse_version_canonical]
      · simp [SemanticVersion.beq, hpre]

/-- C5 witness: the round trip at the concrete string "1.2.3". -/
theorem semver_parse_render_roundtrip_witness :
    ∃ w, SemanticVersion.parse_version
        (SemanticVersion.str ⟨1, 2, 3, none, none⟩) = .ok w
      ∧ SemanticVersion.beq w ⟨1, 2, 3, none, none⟩ = true :=
  semver_parse_render_roundtrip "1.2.3" ⟨1, 2, 3, none, none⟩ rfl rfl rfl
